import Mathlib

set_option maxRecDepth 16384

/-!
Verification of the BlockVault ZKML inference attestation core
(`blockvault/core/zkml_inference.py`) against its specification.

The development shallowly embeds the commitment / proof-synthesis /
verification protocol of `ZKMLSummarizer`:

* Python `dict`/`list`/`str`/`int` values are embedded as the inductive
  `PyVal`; Python exceptions (`KeyError`, `TypeError`, `IndexError`,
  `RuntimeError`) as `PyErr`, with fallible operations returning
  `Except PyErr _`.
* `hashlib.sha256(...).hexdigest()` is embedded as a full executable
  SHA-256 (`sha256hex`) over the UTF-8 bytes of the input string.
* `np.random.seed` / `np.random.randint(1, 1000)` (numpy's legacy
  `RandomState`, an external library) are embedded as the reference
  MT19937 generator with numpy's `init_by_array`-style scalar seeding and
  masked-rejection bounded sampling.  The rejection loop is almost-surely
  terminating in the original; here it carries a large fuel and falls back
  to the lowest in-range value on exhaustion (unreachable for any
  realistic fuel, and no theorem below depends on the sampled values).
* `generate_zk_proof` / `verify_inference` and their helpers follow the
  source line by line, including evaluation order, `and` short-circuiting
  and the `try/except` blocks.
-/

/-! ## Embedding of Python values and exceptions -/

/-- A Python value as used by `zkml_inference.py`: strings, integers,
lists, and string-keyed dicts (association lists, first binding wins,
as in Python where keys are unique). -/
inductive PyVal where
  | str : String → PyVal
  | int : Int → PyVal
  | list : List PyVal → PyVal
  | dict : List (String × PyVal) → PyVal

/-- Python exceptions relevant to the embedded code.  `runtimeError e`
models the `raise RuntimeError(...)` re-wrapping in `generate_zk_proof`,
keeping the original exception as the cause. -/
inductive PyErr where
  | keyError : String → PyErr
  | typeError : PyErr
  | indexError : PyErr
  | runtimeError : PyErr → PyErr

/-- First binding for `key` in an association list (Python dict lookup). -/
def lookupKey : List (String × PyVal) → String → Option PyVal
  | [], _ => none
  | (k, v) :: rest, key => if k == key then some v else lookupKey rest key

/-- `key in d` for a dict. -/
def containsKey (kvs : List (String × PyVal)) (key : String) : Bool :=
  (lookupKey kvs key).isSome

/-- Python `d[key] = v`: replace the first binding if present, else append
(new keys go to the end, as in Python's insertion-ordered dicts). -/
def setKey : List (String × PyVal) → String → PyVal → List (String × PyVal)
  | [], key, v => [(key, v)]
  | (k, x) :: rest, key, v =>
    if k == key then (key, v) :: rest else (k, x) :: setKey rest key v

/-- Python `v[key]` subscripting with a string key: dict lookup
(`KeyError` when absent), `TypeError` on any non-dict. -/
def pyGetItem (v : PyVal) (key : String) : Except PyErr PyVal :=
  match v with
  | .dict kvs =>
    match lookupKey kvs key with
    | some x => .ok x
    | none => .error (.keyError key)
  | _ => .error .typeError

/-- Python `v[i]` with a nonnegative integer index: list indexing
(`IndexError` out of range), single-character string for strings,
`KeyError` for dicts (an int is not a present key), `TypeError` for ints. -/
def pyIndex (v : PyVal) (i : Nat) : Except PyErr PyVal :=
  match v with
  | .list xs =>
    match xs.get? i with
    | some x => .ok x
    | none => .error .indexError
  | .str s =>
    match s.data.get? i with
    | some c => .ok (.str (String.singleton c))
    | none => .error .indexError
  | .dict _ => .error (.keyError (toString i))
  | .int _ => .error .typeError

/-- Python `v == s` for a string literal `s`: string equality when `v` is a
string, `False` for any other type (Python cross-type `==` is `False`,
never an exception). -/
def pyEqStr (v : PyVal) (s : String) : Bool :=
  match v with
  | .str t => t == s
  | _ => false

/-- Python `len(v)`: `TypeError` on ints. -/
def pyLen (v : PyVal) : Except PyErr Nat :=
  match v with
  | .list xs => .ok xs.length
  | .str s => .ok s.length
  | .dict kvs => .ok kvs.length
  | .int _ => .error .typeError

/-- Python `v[:16]`: prefix of a string or list, `TypeError` otherwise. -/
def pySlice16 (v : PyVal) : Except PyErr PyVal :=
  match v with
  | .str s => .ok (.str (s.take 16))
  | .list xs => .ok (.list (xs.take 16))
  | _ => .error .typeError

/-- Python `v.items()`: only dicts have it (`AttributeError` in Python,
folded into `typeError` here). -/
def pyItems (v : PyVal) : Except PyErr (List (String × PyVal)) :=
  match v with
  | .dict kvs => .ok kvs
  | _ => .error .typeError

/-- `isPrefixOf`-based substring test on char lists, for Python
`key in someString`. -/
def charsInfix (p : List Char) : List Char → Bool
  | [] => p.isEmpty
  | c :: rest => List.isPrefixOf p (c :: rest) || charsInfix p rest

/-- Python `key in v` for a string `key`: dict key containment, list
membership, substring test for strings, `TypeError` for ints. -/
def pyContains (v : PyVal) (key : String) : Except PyErr Bool :=
  match v with
  | .dict kvs => .ok (containsKey kvs key)
  | .list xs => .ok (xs.any fun x => pyEqStr x key)
  | .str s => .ok (charsInfix key.data s.data)
  | .int _ => .error .typeError

/-- An ASCII single quote, used by the Python `repr` rendering below. -/
def pyQuote : String := String.singleton (Char.ofNat 39)

mutual
/-- Python `repr(v)` (as used by `str` on containers).  Only the string
case is ever exercised by the verified code paths; container rendering is
provided for totality. -/
def pyReprOf : PyVal → String
  | .str s => pyQuote ++ s ++ pyQuote
  | .int i => toString i
  | .list xs => "[" ++ pyReprList xs ++ "]"
  | .dict kvs => "\x7b" ++ pyReprDict kvs ++ "\x7d"

def pyReprList : List PyVal → String
  | [] => ""
  | [x] => pyReprOf x
  | x :: y :: rest => pyReprOf x ++ ", " ++ pyReprList (y :: rest)

def pyReprDict : List (String × PyVal) → String
  | [] => ""
  | [(k, v)] => pyQuote ++ k ++ pyQuote ++ ": " ++ pyReprOf v
  | (k, v) :: y :: rest => pyQuote ++ k ++ pyQuote ++ ": " ++ pyReprOf v ++ ", " ++ pyReprDict (y :: rest)
end

/-- Python `str(v)` as used by f-strings: the string itself for strings,
decimal rendering for ints, `repr`-based rendering for containers. -/
def pyStrOf : PyVal → String
  | .str s => s
  | v => pyReprOf v

/-! ## SHA-256 (`hashlib.sha256(x.encode("utf-8")).hexdigest()`) -/

/-- Reduce to a 32-bit word. -/
def w32 (n : Nat) : Nat := n % 4294967296

/-- Right rotation of a 32-bit word. -/
def rotr (x n : Nat) : Nat := w32 ((x >>> n) ||| (x <<< (32 - n)))

/-- UTF-8 encoding of one code point. -/
def utf8EncodeCharM (c : Char) : List Nat :=
  let n := c.toNat
  if n < 128 then [n]
  else if n < 2048 then [192 ||| (n >>> 6), 128 ||| (n &&& 63)]
  else if n < 65536 then
    [224 ||| (n >>> 12), 128 ||| ((n >>> 6) &&& 63), 128 ||| (n &&& 63)]
  else
    [240 ||| (n >>> 18), 128 ||| ((n >>> 12) &&& 63),
     128 ||| ((n >>> 6) &&& 63), 128 ||| (n &&& 63)]

/-- UTF-8 bytes of a string (`x.encode("utf-8")`). -/
def utf8Bytes (s : String) : List Nat :=
  (s.data.map utf8EncodeCharM).flatten

/-- 64-bit big-endian bytes. -/
def be64 (n : Nat) : List Nat :=
  [(n >>> 56) % 256, (n >>> 48) % 256, (n >>> 40) % 256, (n >>> 32) % 256,
   (n >>> 24) % 256, (n >>> 16) % 256, (n >>> 8) % 256, n % 256]

/-- SHA-256 message padding. -/
def padMessage (msg : List Nat) : List Nat :=
  let L := msg.length
  let r := (L + 1) % 64
  let k := if r ≤ 56 then 56 - r else 56 + 64 - r
  msg ++ 128 :: List.replicate k 0 ++ be64 (8 * L)

/-- Split into 64-byte blocks (structural recursion on a length fuel, so
that the definition reduces inside the kernel). -/
def chunks64Go : Nat → List Nat → List (List Nat)
  | 0, _ => []
  | _ + 1, [] => []
  | n + 1, x :: xs => ((x :: xs).take 64) :: chunks64Go n ((x :: xs).drop 64)

/-- Split into 64-byte blocks. -/
def chunks64 (l : List Nat) : List (List Nat) :=
  chunks64Go l.length l

/-- SHA-256 round constants (FIPS 180-4), written in decimal. -/
def shaK : List Nat :=
  [1116352408, 1899447441, 3049323471, 3921009573, 961987163, 1508970993,
   2453635748, 2870763221, 3624381080, 310598401, 607225278, 1426881987,
   1925078388, 2162078206, 2614888103, 3248222580, 3835390401, 4022224774,
   264347078, 604807628, 770255983, 1249150122, 1555081692, 1996064986,
   2554220882, 2821834349, 2952996808, 3210313671, 3336571891, 3584528711,
   113926993, 338241895, 666307205, 773529912, 1294757372, 1396182291,
   1695183700, 1986661051, 2177026350, 2456956037, 2730485921, 2820302411,
   3259730800, 3345764771, 3516065817, 3600352804, 4094571909, 275423344,
   430227734, 506948616, 659060556, 883997877, 958139571, 1322822218,
   1537002063, 1747873779, 1955562222, 2024104815, 2227730452, 2361852424,
   2428436474, 2756734187, 3204031479, 3329325298]

/-- SHA-256 initial hash state, written in decimal. -/
def shaH0 : List Nat :=
  [1779033703, 3144134277, 1013904242, 2773480762, 1359893119,
   2600822924, 528734635, 1541459225]

/-- Working state of the SHA-256 compression loop. -/
structure SHAState where
  a : Nat
  b : Nat
  c : Nat
  d : Nat
  e : Nat
  f : Nat
  g : Nat
  h : Nat

/-- Message schedule: 16 big-endian words extended to 64. -/
def shaSchedule (block : List Nat) : List Nat :=
  let w0 := (List.range 16).map fun i =>
    ((block.getD (4 * i) 0) <<< 24) ||| ((block.getD (4 * i + 1) 0) <<< 16) |||
    ((block.getD (4 * i + 2) 0) <<< 8) ||| (block.getD (4 * i + 3) 0)
  (List.range 48).foldl (fun w _ =>
    let i := w.length
    let x15 := w.getD (i - 15) 0
    let x2 := w.getD (i - 2) 0
    let s0 := (rotr x15 7) ^^^ (rotr x15 18) ^^^ (x15 >>> 3)
    let s1 := (rotr x2 17) ^^^ (rotr x2 19) ^^^ (x2 >>> 10)
    w ++ [w32 ((w.getD (i - 16) 0) + s0 + (w.getD (i - 7) 0) + s1)]) w0

/-- One SHA-256 compression round. -/
def shaRound (st : SHAState) (kw : Nat × Nat) : SHAState :=
  let S1 := (rotr st.e 6) ^^^ (rotr st.e 11) ^^^ (rotr st.e 25)
  let ch := (st.e &&& st.f) ^^^ ((st.e ^^^ 4294967295) &&& st.g)
  let t1 := w32 (st.h + S1 + ch + kw.1 + kw.2)
  let S0 := (rotr st.a 2) ^^^ (rotr st.a 13) ^^^ (rotr st.a 22)
  let maj := (st.a &&& st.b) ^^^ (st.a &&& st.c) ^^^ (st.b &&& st.c)
  let t2 := w32 (S0 + maj)
  ⟨w32 (t1 + t2), st.a, st.b, st.c, w32 (st.d + t1), st.e, st.f, st.g⟩

/-- Compress one 64-byte block into the hash state. -/
def shaCompress (hs : List Nat) (block : List Nat) : List Nat :=
  let ws := shaSchedule block
  let st0 : SHAState :=
    ⟨hs.getD 0 0, hs.getD 1 0, hs.getD 2 0, hs.getD 3 0,
     hs.getD 4 0, hs.getD 5 0, hs.getD 6 0, hs.getD 7 0⟩
  let stf := (shaK.zip ws).foldl shaRound st0
  [w32 (hs.getD 0 0 + stf.a), w32 (hs.getD 1 0 + stf.b), w32 (hs.getD 2 0 + stf.c),
   w32 (hs.getD 3 0 + stf.d), w32 (hs.getD 4 0 + stf.e), w32 (hs.getD 5 0 + stf.f),
   w32 (hs.getD 6 0 + stf.g), w32 (hs.getD 7 0 + stf.h)]

/-- SHA-256 digest bytes of a byte sequence. -/
def sha256bytes (msg : List Nat) : List Nat :=
  let hs := (chunks64 (padMessage msg)).foldl shaCompress shaH0
  (hs.map fun w => [(w >>> 24) % 256, (w >>> 16) % 256, (w >>> 8) % 256, w % 256]).flatten

/-- Lowercase hexadecimal digit. -/
def hexDigitChar (n : Nat) : Char :=
  if n < 10 then Char.ofNat (48 + n) else Char.ofNat (87 + n)

/-- `hashlib.sha256(s.encode("utf-8")).hexdigest()`: 64 lowercase hex
characters. -/
def sha256hex (s : String) : String :=
  String.mk (((sha256bytes (utf8Bytes s)).map fun b => [hexDigitChar (b / 16), hexDigitChar (b % 16)]).flatten)

/-- Value of one hexadecimal digit (`int(_, 16)` accepts both cases;
non-digits are unreachable on hashes produced by `sha256hex`). -/
def hexDigitVal (c : Char) : Nat :=
  let n := c.toNat
  if 48 ≤ n ∧ n ≤ 57 then n - 48
  else if 97 ≤ n ∧ n ≤ 102 then n - 87
  else if 65 ≤ n ∧ n ≤ 70 then n - 55
  else 0

/-- `int(s, 16)`. -/
def hexVal (s : String) : Nat :=
  s.data.foldl (fun a c => 16 * a + hexDigitVal c) 0

/-! ## numpy legacy `RandomState` (MT19937), as used by the proof-point mock

`np.random.seed(seed)` / `np.random.randint(1, 1000)` come from the external
numpy library; they are embedded here as the reference MT19937 generator
with scalar `init_by_array` seeding and masked-rejection bounded sampling
(numpy's legacy bounded-integer path).  No theorem below depends on the
concrete sampled values, only on the seeding interface, the output range
and determinism. -/

/-- MT19937 state: 624 32-bit words plus the output index. -/
structure MTState where
  mt : Array Nat
  idx : Nat

/-- Reference `init_genrand`. -/
def mtInitGenrand (s : Nat) : Array Nat :=
  (List.range 624).foldl (fun a i =>
    if i == 0 then #[s % 4294967296]
    else
      let prev := a.getD (i - 1) 0
      a.push ((1812433253 * (prev ^^^ (prev >>> 30)) + i) % 4294967296)) #[]

/-- Reference `init_by_array` with the single-word key `[seed]`, which is
how numpy seeds the legacy generator from a scalar. -/
def mtInitByArray (seed : Nat) : Array Nat :=
  let a0 := mtInitGenrand 19650218
  let key := seed % 4294967296
  let step1 := fun (p : Array Nat × Nat) (_ : Nat) =>
    let a := p.1
    let i := p.2
    let prev := a.getD (i - 1) 0
    let v := (((a.getD i 0) ^^^ ((prev ^^^ (prev >>> 30)) * 1664525)) + key) % 4294967296
    let a2 := a.set! i v
    let i2 := i + 1
    if i2 ≥ 624 then (a2.set! 0 (a2.getD 623 0), 1) else (a2, i2)
  let q1 := (List.range 624).foldl step1 (a0, 1)
  let step2 := fun (p : Array Nat × Nat) (_ : Nat) =>
    let a := p.1
    let i := p.2
    let prev := a.getD (i - 1) 0
    let v := (((a.getD i 0) ^^^ ((prev ^^^ (prev >>> 30)) * 1566083941)) + 4294967296 - i) % 4294967296
    let a2 := a.set! i v
    let i2 := i + 1
    if i2 ≥ 624 then (a2.set! 0 (a2.getD 623 0), 1) else (a2, i2)
  let q2 := (List.range 623).foldl step2 q1
  q2.1.set! 0 2147483648

/-- `np.random.seed(seed)` (seed taken mod 2^32; numpy rejects larger
seeds, a case unreachable from 8 hex digits). -/
def npSeedState (seed : Nat) : MTState :=
  ⟨mtInitByArray seed, 624⟩

/-- The MT19937 twist, regenerating all 624 words in place. -/
def mtTwist (a0 : Array Nat) : Array Nat :=
  (List.range 624).foldl (fun a i =>
    let y := ((a.getD i 0) &&& 2147483648) ||| ((a.getD ((i + 1) % 624) 0) &&& 2147483647)
    let v := (a.getD ((i + 397) % 624) 0) ^^^ (y >>> 1) ^^^ (if y % 2 == 1 then 2567483615 else 0)
    a.set! i v) a0

/-- `genrand_int32`: one tempered 32-bit output. -/
def mtNext (st : MTState) : Nat × MTState :=
  let p := if st.idx ≥ 624 then (mtTwist st.mt, 0) else (st.mt, st.idx)
  let a := p.1
  let i := p.2
  let y0 := a.getD i 0
  let y1 := y0 ^^^ (y0 >>> 11)
  let y2 := y1 ^^^ ((y1 <<< 7) &&& 2636928640)
  let y3 := y2 ^^^ ((y2 <<< 15) &&& 4022730752)
  let y4 := (y3 ^^^ (y3 >>> 18)) % 4294967296
  (y4, ⟨a, i + 1⟩)

/-- numpy's masked-rejection sampler over `[0, rng]`: draw, mask, retry
while above `rng`.  The loop terminates almost surely; it is fuelled here
and falls back to `0` (the lowest in-range value) on exhaustion. -/
def rkInterval (rng mask : Nat) : Nat → MTState → Nat × MTState
  | 0, st => (0, st)
  | f + 1, st =>
    let x := (mtNext st).1
    let st2 := (mtNext st).2
    if x &&& mask ≤ rng then (x &&& mask, st2) else rkInterval rng mask f st2

/-- `np.random.randint(1, 1000)`: `off = 1`, `rng = 998`, `mask = 1023`. -/
def npRandint1To1000 (st : MTState) : Nat × MTState :=
  let p := rkInterval 998 1023 4096 st
  (1 + p.1, p.2)

/-- `n` successive `np.random.randint(1, 1000)` draws. -/
def drawNats : Nat → MTState → List Nat × MTState
  | 0, st => ([], st)
  | n + 1, st =>
    let v := npRandint1To1000 st
    let rest := drawNats n v.2
    (v.1 :: rest.1, rest.2)

/-- The three draws of `_generate_proof_point` after `np.random.seed(seed)`. -/
def pointFromSeed (seed : Nat) : List Nat :=
  (drawNats 3 (npSeedState seed)).1

/-- The 3×2 row-major draws of `_generate_proof_matrix` after
`np.random.seed(seed)`. -/
def matrixFromSeed (seed : Nat) : List (List Nat) :=
  let r1 := drawNats 2 (npSeedState seed)
  let r2 := drawNats 2 r1.2
  let r3 := drawNats 2 r2.2
  [r1.1, r2.1, r3.1]

/-! ## The embedded `ZKMLSummarizer` core

The `self.model_hash` instance attribute is threaded as an explicit
`model_hash` argument; model loading itself (`_get_model_hash`) is outside
the verified core. -/

/-- `_generate_verification_key` (line 252): digest of the first 100
characters of the text, the summary, and the model hash. -/
def _generate_verification_key (model_hash text summary : String) : String :=
  sha256hex (text.take 100 ++ summary ++ model_hash)

/-- The lexicographic order Python's `sorted` uses on `(key, value)`
string pairs. -/
def pairLe (a b : String × String) : Prop :=
  a.1 < b.1 ∨ (a.1 = b.1 ∧ a.2 ≤ b.2)

instance pairLeDecidable : DecidableRel pairLe := fun a b =>
  inferInstanceAs (Decidable (a.1 < b.1 ∨ (a.1 = b.1 ∧ a.2 ≤ b.2)))

instance pairLeTotal : IsTotal (String × String) pairLe where
  total a b := by
    rcases lt_trichotomy a.1 b.1 with h | h | h
    · exact Or.inl (Or.inl h)
    · rcases le_total a.2 b.2 with h2 | h2
      · exact Or.inl (Or.inr ⟨h, h2⟩)
      · exact Or.inr (Or.inr ⟨h.symm, h2⟩)
    · exact Or.inr (Or.inl h)

instance pairLeTrans : IsTrans (String × String) pairLe where
  trans a b c hab hbc := by
    rcases hab with h1 | ⟨h1, h1v⟩
    · rcases hbc with h2 | ⟨h2, _⟩
      · exact Or.inl (h1.trans h2)
      · exact Or.inl (h2 ▸ h1)
    · rcases hbc with h2 | ⟨h2, h2v⟩
      · exact Or.inl (h1 ▸ h2)
      · exact Or.inr ⟨h1.trans h2, h1v.trans h2v⟩

instance pairLeAntisymm : IsAntisymm (String × String) pairLe where
  antisymm a b hab hba := by
    rcases hab with h1 | ⟨h1, h1v⟩
    · rcases hba with h2 | ⟨h2, _⟩
      · exact absurd (h1.trans h2) (lt_irrefl a.1)
      · exact absurd h1 (h2 ▸ lt_irrefl b.1)
    · rcases hba with h2 | ⟨h2, h2v⟩
      · exact absurd h2 (h1 ▸ lt_irrefl a.1)
      · exact Prod.ext h1 (le_antisymm h1v h2v)

/-- `_generate_commitment` (lines 257-260): digest of the `"k:v"` pieces of
the mapping, joined with no separator, in sorted order. -/
def _generate_commitment (inputs : List (String × String)) : String :=
  sha256hex (String.join ((List.insertionSort pairLe inputs).map fun kv => kv.1 ++ ":" ++ kv.2))

/-- `_verify_commitment` (lines 262-265): recompute the commitment from the
supplied circuit inputs (f-string `str()` on each value) and compare.
Possible exceptions: `inputs.items()` on a non-dict. -/
def _verify_commitment (commitment inputs : PyVal) : Except PyErr Bool :=
  Except.bind (pyItems inputs) fun kvs =>
  Except.ok (pyEqStr commitment (_generate_commitment (kvs.map fun kv => (kv.1, pyStrOf kv.2))))

/-- `_generate_proof_point` (lines 267-273): seeds with the first 8 hex
characters of the commitment and draws 3 values.  The `suffix` parameter
is unused, exactly as in the source. -/
def _generate_proof_point (commitment : String) (suffix : String) : List String :=
  let seed := hexVal (commitment.take 8)
  (pointFromSeed seed).map fun n => toString n

/-- `_generate_proof_matrix` (lines 275-281): same seed plus the length of
the suffix, 3 rows of 2 values. -/
def _generate_proof_matrix (commitment : String) (suffix : String) : List (List String) :=
  let seed := hexVal (commitment.take 8) + suffix.length
  (matrixFromSeed seed).map fun r => r.map fun n => toString n

/-- The `try` body of `generate_zk_proof` (lines 145-175): project the
metadata into circuit inputs (`KeyError` surfaces at the first missing
field, in construction order), build the commitment, the mock points and
the truncated public signals, and assemble the artifact dict. -/
def generate_body (metadata : PyVal) : Except PyErr PyVal :=
  Except.bind (pyGetItem metadata "input_hash") fun ih =>
  Except.bind (pyGetItem metadata "output_hash") fun oh =>
  Except.bind (pyGetItem metadata "model_hash") fun mh =>
  Except.bind (pyGetItem metadata "input_length") fun il =>
  Except.bind (pyGetItem metadata "output_length") fun ol =>
  Except.bind (pyGetItem metadata "verification_key") fun vk =>
  let circuit_inputs : List (String × PyVal) :=
    [("input_hash", ih), ("output_hash", oh), ("model_hash", mh),
     ("input_length", PyVal.str (pyStrOf il)), ("output_length", PyVal.str (pyStrOf ol)),
     ("verification_key", vk)]
  let commitment := _generate_commitment (circuit_inputs.map fun kv => (kv.1, pyStrOf kv.2))
  let pi_a := _generate_proof_point commitment "a"
  let pi_b := _generate_proof_matrix commitment "b"
  let pi_c := _generate_proof_point commitment "c"
  Except.bind (pySlice16 ih) fun s0 =>
  Except.bind (pySlice16 oh) fun s1 =>
  Except.bind (pySlice16 mh) fun s2 =>
  Except.bind (pySlice16 vk) fun s3 =>
  Except.ok (PyVal.dict
    [("pi_a", PyVal.list (pi_a.map PyVal.str)),
     ("pi_b", PyVal.list (pi_b.map fun row => PyVal.list (row.map PyVal.str))),
     ("pi_c", PyVal.list (pi_c.map PyVal.str)),
     ("protocol", PyVal.str "groth16"),
     ("curve", PyVal.str "bn128"),
     ("public_signals", PyVal.list [s0, s1, s2, s3]),
     ("commitment", PyVal.str commitment),
     ("circuit_inputs", PyVal.dict circuit_inputs)])

/-- `generate_zk_proof` (lines 133-182).  The `text` and `summary`
arguments are accepted but unused by the body, exactly as in the source;
the `except` clause re-raises any exception as a `RuntimeError`. -/
def generate_zk_proof (text summary : String) (metadata : PyVal) : Except PyErr PyVal :=
  match generate_body metadata with
  | .ok p => .ok p
  | .error e => .error (.runtimeError e)

/-- The `hash_matches` expression of `verify_inference` (lines 202-206),
with Python's `and` short-circuiting (later subscripts are not evaluated
once a conjunct is `False`). -/
def hash_matches_check (model_hash input_hash output_hash : String) (proof : PyVal) : Except PyErr Bool :=
  Except.bind (pyGetItem proof "public_signals") fun ps1 =>
  Except.bind (pyIndex ps1 0) fun v0 =>
  if pyEqStr v0 (input_hash.take 16) then
    Except.bind (pyGetItem proof "public_signals") fun ps2 =>
    Except.bind (pyIndex ps2 1) fun v1 =>
    if pyEqStr v1 (output_hash.take 16) then
      Except.bind (pyGetItem proof "public_signals") fun ps3 =>
      Except.bind (pyIndex ps3 2) fun v2 =>
      Except.ok (pyEqStr v2 (model_hash.take 16))
    else Except.ok false
  else Except.ok false

/-- The `commitment_valid` expression of `verify_inference` (line 209). -/
def commitment_check (proof : PyVal) : Except PyErr Bool :=
  Except.bind (pyGetItem proof "commitment") fun comm =>
  Except.bind (pyGetItem proof "circuit_inputs") fun ci =>
  _verify_commitment comm ci

/-- The `proof_structure_valid` expression of `verify_inference`
(lines 212-217): key presence of the three points and exactly four public
signals, with `and` short-circuiting. -/
def structure_check (proof : PyVal) : Except PyErr Bool :=
  Except.bind (pyContains proof "pi_a") fun a =>
  if a then
    Except.bind (pyContains proof "pi_b") fun b =>
    if b then
      Except.bind (pyContains proof "pi_c") fun c =>
      if c then
        Except.bind (pyGetItem proof "public_signals") fun ps =>
        Except.bind (pyLen ps) fun n =>
        Except.ok (n == 4)
      else Except.ok false
    else Except.ok false
  else Except.ok false

/-- The `try` body of `verify_inference` (lines 196-222): the three check
booleans in source order (hashing of text and summary happens first). -/
def verify_checks (model_hash text summary : String) (proof : PyVal) : Except PyErr (Bool × Bool × Bool) :=
  let input_hash := sha256hex text
  let output_hash := sha256hex summary
  Except.bind (hash_matches_check model_hash input_hash output_hash proof) fun h =>
  Except.bind (commitment_check proof) fun c =>
  Except.bind (structure_check proof) fun st =>
  Except.ok (h, c, st)

/-- `verify_inference` (lines 184-226): the conjunction of the three
checks; any exception in the body is caught and turned into `False`
(lines 224-226), so the function always returns a boolean. -/
def verify_inference (model_hash text summary : String) (proof : PyVal) : Bool :=
  match verify_checks model_hash text summary proof with
  | .ok hcs => hcs.1 && hcs.2.1 && hcs.2.2
  | .error _ => false

/-- The inference metadata dict built by `run_inference` (lines 113-124).
`max_length`, `min_length` and the timestamp are environment inputs and
are threaded as parameters; the hash and length fields are computed from
the text and summary exactly as in the source. -/
def inference_metadata (model_hash text summary : String) (max_length min_length : Nat) (timestamp : Int) : PyVal :=
  PyVal.dict
    [("input_hash", PyVal.str (sha256hex text)),
     ("output_hash", PyVal.str (sha256hex summary)),
     ("model_hash", PyVal.str model_hash),
     ("input_length", PyVal.int (Int.ofNat text.length)),
     ("output_length", PyVal.int (Int.ofNat summary.length)),
     ("max_length", PyVal.int (Int.ofNat max_length)),
     ("min_length", PyVal.int (Int.ofNat min_length)),
     ("timestamp", PyVal.int timestamp),
     ("model_name", PyVal.str "bart-large-cnn"),
     ("verification_key", PyVal.str (_generate_verification_key model_hash text summary))]

/-- The spec's diagnostic taxonomy for verification outcomes (§4.4, §7).
The source returns only a bare boolean; these labels name its checks. -/
inductive VerifyReason where
  | structuralError : VerifyReason
  | bindingMismatch : VerifyReason
  | commitmentMismatch : VerifyReason
  | internalError : VerifyReason
deriving DecidableEq

/-- Spec §4.4 reason assignment, stated over the source's three check
booleans: report the first failing check in the priority order
structural, binding, commitment; caught exceptions report
`internalError`; `none` when the artifact verifies.  This definition
follows the spec's words (the source itself returns only the bare
boolean `verify_inference`). -/
def spec_verify_reason (model_hash text summary : String) (proof : PyVal) : Option VerifyReason :=
  match verify_checks model_hash text summary proof with
  | .error _ => some .internalError
  | .ok hcs =>
    if hcs.2.2 = false then some .structuralError
    else if hcs.1 = false then some .bindingMismatch
    else if hcs.2.1 = false then some .commitmentMismatch
    else none

/-- A concrete metadata record used as the evaluation input of several
witness theorems below. -/
def sampleMetadata : PyVal :=
  PyVal.dict
    [("input_hash", PyVal.str "ih"), ("output_hash", PyVal.str "oh"),
     ("model_hash", PyVal.str "mh"), ("input_length", PyVal.int 5),
     ("output_length", PyVal.int 3), ("verification_key", PyVal.str "vk")]

/-! ## Supporting lemmas -/

theorem rkInterval_le (f : Nat) (st : MTState) : (rkInterval 998 1023 f st).1 ≤ 998 := by
  induction f generalizing st with
  | zero => simp [rkInterval]
  | succ n ih =>
    simp only [rkInterval]
    split
    · simpa using (by assumption)
    · exact ih _

theorem npRandint1To1000_range (st : MTState) :
    1 ≤ (npRandint1To1000 st).1 ∧ (npRandint1To1000 st).1 ≤ 999 := by
  simp only [npRandint1To1000]
  have h := rkInterval_le 4096 st
  omega

theorem drawNats_length (n : Nat) : ∀ st, (drawNats n st).1.length = n := by
  induction n with
  | zero => intro st; simp [drawNats]
  | succ m ih => intro st; simp [drawNats, ih]

theorem drawNats_range (n : Nat) : ∀ st, ∀ v ∈ (drawNats n st).1, 1 ≤ v ∧ v ≤ 999 := by
  induction n with
  | zero => intro st v hv; simp [drawNats] at hv
  | succ m ih =>
    intro st v hv
    simp only [drawNats, List.mem_cons] at hv
    rcases hv with h | h
    · exact h ▸ npRandint1To1000_range st
    · exact ih _ v h

theorem pointFromSeed_length (seed : Nat) : (pointFromSeed seed).length = 3 := by
  simp [pointFromSeed, drawNats_length]

theorem pointFromSeed_range (seed : Nat) : ∀ v ∈ pointFromSeed seed, 1 ≤ v ∧ v ≤ 999 := by
  intro v hv
  exact drawNats_range 3 _ v hv

theorem matrixFromSeed_length (seed : Nat) : (matrixFromSeed seed).length = 3 := rfl

theorem matrixFromSeed_rows (seed : Nat) :
    ∀ r ∈ matrixFromSeed seed, r.length = 2 ∧ ∀ v ∈ r, 1 ≤ v ∧ v ≤ 999 := by
  intro r hr
  simp only [matrixFromSeed, List.mem_cons, List.not_mem_nil, or_false] at hr
  rcases hr with h | h | h <;>
    exact h ▸ ⟨drawNats_length 2 _, fun v hv => drawNats_range 2 _ v hv⟩

theorem lookupKey_setKey_self (l : List (String × PyVal)) (k : String) (v : PyVal) :
    lookupKey (setKey l k v) k = some v := by
  induction l with
  | nil => simp [setKey, lookupKey]
  | cons hd tl ih =>
    by_cases hak : (hd.1 == k) = true
    · simp [setKey, hak, lookupKey]
    · simp only [setKey]
      rw [if_neg (by simp [hak])]
      simp [lookupKey, hak, ih]

theorem lookupKey_setKey_ne (l : List (String × PyVal)) (k k2 : String) (v : PyVal)
    (h : (k == k2) = false) :
    lookupKey (setKey l k v) k2 = lookupKey l k2 := by
  induction l with
  | nil => simp [setKey, lookupKey, h]
  | cons hd tl ih =>
    by_cases hak : (hd.1 == k) = true
    · have hk : hd.1 = k := by simpa [beq_iff_eq] using hak
      simp [setKey, hak, lookupKey, h, hk]
    · simp only [setKey]
      rw [if_neg (by simp [hak])]
      simp only [lookupKey]
      rw [ih]

theorem containsKey_setKey_self (l : List (String × PyVal)) (k : String) (v : PyVal) :
    containsKey (setKey l k v) k = true := by
  simp [containsKey, lookupKey_setKey_self]

theorem containsKey_setKey_ne (l : List (String × PyVal)) (k k2 : String) (v : PyVal)
    (h : (k == k2) = false) :
    containsKey (setKey l k v) k2 = containsKey l k2 := by
  simp [containsKey, lookupKey_setKey_ne l k k2 v h]

/-- Shape of the artifact produced by `generate_zk_proof` when the six
consumed metadata fields are present (the hash-like fields as strings). -/
theorem generate_ok_of_fields (text summary : String) (metadata : PyVal)
    (ih oh mh vk : String) (il ol : PyVal)
    (hih : pyGetItem metadata "input_hash" = .ok (.str ih))
    (hoh : pyGetItem metadata "output_hash" = .ok (.str oh))
    (hmh : pyGetItem metadata "model_hash" = .ok (.str mh))
    (hil : pyGetItem metadata "input_length" = .ok il)
    (hol : pyGetItem metadata "output_length" = .ok ol)
    (hvk : pyGetItem metadata "verification_key" = .ok (.str vk)) :
    generate_zk_proof text summary metadata = .ok (PyVal.dict
      [("pi_a", PyVal.list ((_generate_proof_point (_generate_commitment
          [("input_hash", ih), ("output_hash", oh), ("model_hash", mh),
           ("input_length", pyStrOf il), ("output_length", pyStrOf ol),
           ("verification_key", vk)]) "a").map PyVal.str)),
       ("pi_b", PyVal.list ((_generate_proof_matrix (_generate_commitment
          [("input_hash", ih), ("output_hash", oh), ("model_hash", mh),
           ("input_length", pyStrOf il), ("output_length", pyStrOf ol),
           ("verification_key", vk)]) "b").map fun row => PyVal.list (row.map PyVal.str))),
       ("pi_c", PyVal.list ((_generate_proof_point (_generate_commitment
          [("input_hash", ih), ("output_hash", oh), ("model_hash", mh),
           ("input_length", pyStrOf il), ("output_length", pyStrOf ol),
           ("verification_key", vk)]) "c").map PyVal.str)),
       ("protocol", PyVal.str "groth16"),
       ("curve", PyVal.str "bn128"),
       ("public_signals", PyVal.list
         [.str (ih.take 16), .str (oh.take 16), .str (mh.take 16), .str (vk.take 16)]),
       ("commitment", PyVal.str (_generate_commitment
          [("input_hash", ih), ("output_hash", oh), ("model_hash", mh),
           ("input_length", pyStrOf il), ("output_length", pyStrOf ol),
           ("verification_key", vk)])),
       ("circuit_inputs", PyVal.dict
         [("input_hash", .str ih), ("output_hash", .str oh), ("model_hash", .str mh),
          ("input_length", .str (pyStrOf il)), ("output_length", .str (pyStrOf ol)),
          ("verification_key", .str vk)])]) := by
  simp [generate_zk_proof, generate_body, hih, hoh, hmh, hil, hol, hvk, Except.bind,
    pySlice16, pyStrOf]

/-! ## Claims -/

/-- C3: Commitment order-independence — for every two commitment-input
mappings with identical key/value sets (presented in any construction or
iteration order, i.e. as permutations of each other), the commitment
builder `_generate_commitment` produces the identical commitment digest. -/
theorem C3_commitment_order_independence (l1 l2 : List (String × String))
    (hperm : l1.Perm l2) :
    _generate_commitment l1 = _generate_commitment l2 := by
  unfold _generate_commitment
  have hs : List.insertionSort pairLe l1 = List.insertionSort pairLe l2 :=
    List.eq_of_perm_of_sorted
      (((List.perm_insertionSort pairLe l1).trans hperm).trans
        (List.perm_insertionSort pairLe l2).symm)
      (List.sorted_insertionSort pairLe l1) (List.sorted_insertionSort pairLe l2)
  rw [hs]

/-- Witness for C3 at a concrete pair of reordered mappings. -/
theorem C3_commitment_order_independence_witness :
    List.Perm [(("b" : String), ("2" : String)), ("a", "1")] [("a", "1"), ("b", "2")] ∧
    _generate_commitment [("b", "2"), ("a", "1")] =
      _generate_commitment [("a", "1"), ("b", "2")] :=
  ⟨List.Perm.swap ("a", "1") ("b", "2") [],
   C3_commitment_order_independence _ _ (List.Perm.swap ("a", "1") ("b", "2") [])⟩

/-- C4: Synthesis determinism — proof synthesis is a pure function of the
six consumed metadata fields: any two calls whose metadata agree on
`input_hash`, `output_hash`, `model_hash`, `input_length`, `output_length`
and `verification_key` (in particular two calls on the very same record)
yield identical artifacts, with identical points, tags, public signals,
commitment and circuit inputs.  The source re-seeds the global generator
from the commitment before every draw, so no ambient state enters. -/
theorem C4_synthesis_determinism (text summary text2 summary2 : String) (m m2 : PyVal)
    (h1 : pyGetItem m "input_hash" = pyGetItem m2 "input_hash")
    (h2 : pyGetItem m "output_hash" = pyGetItem m2 "output_hash")
    (h3 : pyGetItem m "model_hash" = pyGetItem m2 "model_hash")
    (h4 : pyGetItem m "input_length" = pyGetItem m2 "input_length")
    (h5 : pyGetItem m "output_length" = pyGetItem m2 "output_length")
    (h6 : pyGetItem m "verification_key" = pyGetItem m2 "verification_key") :
    generate_zk_proof text summary m = generate_zk_proof text2 summary2 m2 := by
  unfold generate_zk_proof generate_body
  rw [h1, h2, h3, h4, h5, h6]

/-- Witness for C4: two metadata records differing in an unused field
(and different text/summary arguments) synthesize identical artifacts. -/
theorem C4_synthesis_determinism_witness :
    generate_zk_proof "text a" "summary a"
      (PyVal.dict [("input_hash", .str "ih"), ("output_hash", .str "oh"),
                   ("model_hash", .str "mh"), ("input_length", .int 2),
                   ("output_length", .int 3), ("verification_key", .str "vk"),
                   ("model_name", .str "bart-large-cnn")]) =
    generate_zk_proof "text b" "summary b"
      (PyVal.dict [("input_hash", .str "ih"), ("output_hash", .str "oh"),
                   ("model_hash", .str "mh"), ("input_length", .int 2),
                   ("output_length", .int 3), ("verification_key", .str "vk"),
                   ("model_name", .str "other-model")]) :=
  C4_synthesis_determinism _ _ _ _ _ _ rfl rfl rfl rfl rfl rfl

/-- C7: Verification totality — `verify_inference` is a total boolean
function of its inputs (the embedding makes every internal exception an
explicit `Except` error), and whenever the recomputation body raises any
internal exception (missing, malformed or ill-typed artifact fields), the
`except` clause downgrades it to `valid = false`; under the spec's reason
taxonomy this is the `InternalError` outcome.  No exception ever reaches
the caller. -/
theorem C7_verification_totality (model_hash text summary : String) (proof : PyVal)
    (e : PyErr) (herr : verify_checks model_hash text summary proof = .error e) :
    verify_inference model_hash text summary proof = false ∧
    spec_verify_reason model_hash text summary proof = some VerifyReason.internalError := by
  constructor
  · unfold verify_inference
    rw [herr]
  · unfold spec_verify_reason
    rw [herr]

/-- Witness for C7: an artifact lacking every field makes the body raise
`KeyError("public_signals")`, and verification returns `false`. -/
theorem C7_verification_totality_witness :
    verify_checks "m" "t" "s" (PyVal.dict []) = .error (PyErr.keyError "public_signals") ∧
    verify_inference "m" "t" "s" (PyVal.dict []) = false ∧
    spec_verify_reason "m" "t" "s" (PyVal.dict []) = some VerifyReason.internalError :=
  ⟨rfl, (C7_verification_totality "m" "t" "s" (PyVal.dict []) _ rfl).1,
        (C7_verification_totality "m" "t" "s" (PyVal.dict []) _ rfl).2⟩

/-- C10: Verification does not depend on the proof-point values — for any
artifact dict containing `pi_a`, `pi_b` and `pi_c`, replacing the values
stored under those three keys by arbitrary values leaves the verification
result unchanged (the verifier only tests key presence, so in particular a
valid artifact stays valid under arbitrary point replacement). -/
theorem C10_proof_points_irrelevant (model_hash text summary : String)
    (kvs : List (String × PyVal)) (va vb vc : PyVal)
    (ha : containsKey kvs "pi_a" = true) (hb : containsKey kvs "pi_b" = true)
    (hc : containsKey kvs "pi_c" = true) :
    verify_inference model_hash text summary (PyVal.dict kvs) =
    verify_inference model_hash text summary
      (PyVal.dict (setKey (setKey (setKey kvs "pi_a" va) "pi_b" vb) "pi_c" vc)) := by
  have hps : lookupKey (setKey (setKey (setKey kvs "pi_a" va) "pi_b" vb) "pi_c" vc) "public_signals"
      = lookupKey kvs "public_signals" := by
    rw [lookupKey_setKey_ne _ "pi_c" "public_signals" _ (by decide),
        lookupKey_setKey_ne _ "pi_b" "public_signals" _ (by decide),
        lookupKey_setKey_ne _ "pi_a" "public_signals" _ (by decide)]
  have hcm : lookupKey (setKey (setKey (setKey kvs "pi_a" va) "pi_b" vb) "pi_c" vc) "commitment"
      = lookupKey kvs "commitment" := by
    rw [lookupKey_setKey_ne _ "pi_c" "commitment" _ (by decide),
        lookupKey_setKey_ne _ "pi_b" "commitment" _ (by decide),
        lookupKey_setKey_ne _ "pi_a" "commitment" _ (by decide)]
  have hci : lookupKey (setKey (setKey (setKey kvs "pi_a" va) "pi_b" vb) "pi_c" vc) "circuit_inputs"
      = lookupKey kvs "circuit_inputs" := by
    rw [lookupKey_setKey_ne _ "pi_c" "circuit_inputs" _ (by decide),
        lookupKey_setKey_ne _ "pi_b" "circuit_inputs" _ (by decide),
        lookupKey_setKey_ne _ "pi_a" "circuit_inputs" _ (by decide)]
  have hpa : containsKey (setKey (setKey (setKey kvs "pi_a" va) "pi_b" vb) "pi_c" vc) "pi_a" = true := by
    rw [containsKey_setKey_ne _ "pi_c" "pi_a" _ (by decide),
        containsKey_setKey_ne _ "pi_b" "pi_a" _ (by decide)]
    exact containsKey_setKey_self _ _ _
  have hpb : containsKey (setKey (setKey (setKey kvs "pi_a" va) "pi_b" vb) "pi_c" vc) "pi_b" = true := by
    rw [containsKey_setKey_ne _ "pi_c" "pi_b" _ (by decide)]
    exact containsKey_setKey_self _ _ _
  have hpc : containsKey (setKey (setKey (setKey kvs "pi_a" va) "pi_b" vb) "pi_c" vc) "pi_c" = true :=
    containsKey_setKey_self _ _ _
  simp only [verify_inference, verify_checks, hash_matches_check, commitment_check,
    structure_check, pyGetItem, pyContains, hps, hcm, hci, hpa, hpb, hpc, ha, hb, hc]

/-- Witness for C10 at a concrete artifact dict with the three point keys
present and arbitrary replacement values. -/
theorem C10_proof_points_irrelevant_witness :
    containsKey [("pi_a", PyVal.int 1), ("pi_b", PyVal.int 2), ("pi_c", PyVal.int 3)] "pi_a" = true ∧
    containsKey [("pi_a", PyVal.int 1), ("pi_b", PyVal.int 2), ("pi_c", PyVal.int 3)] "pi_b" = true ∧
    containsKey [("pi_a", PyVal.int 1), ("pi_b", PyVal.int 2), ("pi_c", PyVal.int 3)] "pi_c" = true ∧
    verify_inference "m" "t" "s"
      (PyVal.dict [("pi_a", PyVal.int 1), ("pi_b", PyVal.int 2), ("pi_c", PyVal.int 3)]) =
    verify_inference "m" "t" "s"
      (PyVal.dict (setKey (setKey (setKey
        [("pi_a", PyVal.int 1), ("pi_b", PyVal.int 2), ("pi_c", PyVal.int 3)]
        "pi_a" (PyVal.str "x")) "pi_b" (PyVal.int 7)) "pi_c" (PyVal.list []))) :=
  ⟨rfl, rfl, rfl,
   C10_proof_points_irrelevant "m" "t" "s" _ _ _ _ rfl rfl rfl⟩

/-- C1: Round-trip binding soundness — for every input text and summary
(and model hash, generation bounds and timestamp), synthesizing a proof
artifact from the inference metadata of `(text, summary, modelHash)` and
then verifying that same `(text, summary, modelHash)` against the
artifact returns valid = true. -/
theorem C1_binding_soundness (model_hash text summary : String)
    (max_length min_length : Nat) (timestamp : Int) :
    ∃ p, generate_zk_proof text summary
        (inference_metadata model_hash text summary max_length min_length timestamp) = .ok p ∧
      verify_inference model_hash text summary p = true := by
  refine ⟨_, rfl, ?_⟩
  simp [verify_inference, verify_checks, hash_matches_check, commitment_check, structure_check,
        pyGetItem, lookupKey, pyIndex, pyEqStr, pyContains, containsKey, pyLen, pySlice16,
        pyItems, _verify_commitment, pyStrOf, Except.bind]

/-- C2: Tamper detection — with the artifact synthesized from
`(text, summary, modelHash)` held fixed, replacing the text (resp. the
summary, resp. the model hash) by any value whose 16-hex-character
truncated hash differs (the hash-collision case is excluded by
hypothesis) makes verification return valid = false, and the failing
check is the hash-binding one: under the spec's priority labelling of the
source's checks the reason is `BindingMismatch`.  (The source itself
returns a bare boolean and reports no reason value.) -/
theorem C2_tamper_detection (model_hash model_hash2 text text2 summary summary2 : String)
    (max_length min_length : Nat) (timestamp : Int)
    (htext : (sha256hex text2).take 16 ≠ (sha256hex text).take 16)
    (hsum : (sha256hex summary2).take 16 ≠ (sha256hex summary).take 16)
    (hmh : model_hash2.take 16 ≠ model_hash.take 16) :
    ∃ p, generate_zk_proof text summary
        (inference_metadata model_hash text summary max_length min_length timestamp) = .ok p ∧
      (verify_inference model_hash text2 summary p = false ∧
       spec_verify_reason model_hash text2 summary p = some VerifyReason.bindingMismatch) ∧
      (verify_inference model_hash text summary2 p = false ∧
       spec_verify_reason model_hash text summary2 p = some VerifyReason.bindingMismatch) ∧
      (verify_inference model_hash2 text summary p = false ∧
       spec_verify_reason model_hash2 text summary p = some VerifyReason.bindingMismatch) := by
  refine ⟨_, rfl, ⟨?_, ?_⟩, ⟨?_, ?_⟩, ⟨?_, ?_⟩⟩ <;>
    simp [verify_inference, spec_verify_reason, verify_checks, hash_matches_check,
          commitment_check, structure_check, pyGetItem, lookupKey, pyIndex, pyEqStr,
          pyContains, containsKey, pyLen, pySlice16, pyItems, _verify_commitment, pyStrOf,
          Except.bind, beq_eq_false_iff_ne.mpr (Ne.symm htext),
          beq_eq_false_iff_ne.mpr (Ne.symm hsum), beq_eq_false_iff_ne.mpr (Ne.symm hmh)]

/-- Witness for C2 at concrete strings whose truncated hashes differ. -/
theorem C2_tamper_detection_witness :
    ((sha256hex "c").take 16 ≠ (sha256hex "a").take 16) ∧
    ((sha256hex "d").take 16 ≠ (sha256hex "b").take 16) ∧
    (("n" : String).take 16 ≠ ("m" : String).take 16) ∧
    (∃ p, generate_zk_proof "a" "b" (inference_metadata "m" "a" "b" 150 30 0) = .ok p ∧
      (verify_inference "m" "c" "b" p = false ∧
       spec_verify_reason "m" "c" "b" p = some VerifyReason.bindingMismatch) ∧
      (verify_inference "m" "a" "d" p = false ∧
       spec_verify_reason "m" "a" "d" p = some VerifyReason.bindingMismatch) ∧
      (verify_inference "n" "a" "b" p = false ∧
       spec_verify_reason "n" "a" "b" p = some VerifyReason.bindingMismatch)) :=
  ⟨by decide, by decide, by decide,
   C2_tamper_detection "m" "n" "a" "c" "b" "d" 150 30 0 (by decide) (by decide) (by decide)⟩

/-- C9: Synthesis failure mode — whenever any of the six required metadata
fields (`input_hash`, `output_hash`, `model_hash`, `input_length`,
`output_length`, `verification_key`) is absent, proof synthesis fails,
and the failure is the input-error kind: the `KeyError` raised while
projecting the missing required field (re-raised wrapped in the
`RuntimeError` of the `except` clause), not a failure of any later stage.
This `KeyError`-on-metadata outcome is the source's realization of the
spec's `InputError` (the source has no distinct error classes beyond the
exception type). -/
theorem C9_synthesis_input_error (text summary : String) (md : List (String × PyVal))
    (h : lookupKey md "input_hash" = none ∨ lookupKey md "output_hash" = none ∨
         lookupKey md "model_hash" = none ∨ lookupKey md "input_length" = none ∨
         lookupKey md "output_length" = none ∨ lookupKey md "verification_key" = none) :
    ∃ f, f ∈ ["input_hash", "output_hash", "model_hash",
              "input_length", "output_length", "verification_key"] ∧
      lookupKey md f = none ∧
      generate_zk_proof text summary (PyVal.dict md) = .error (.runtimeError (.keyError f)) := by
  cases h1 : lookupKey md "input_hash" with
  | none =>
    exact ⟨"input_hash", by simp, h1,
      by simp [generate_zk_proof, generate_body, pyGetItem, h1, Except.bind]⟩
  | some v1 =>
    cases h2 : lookupKey md "output_hash" with
    | none =>
      exact ⟨"output_hash", by simp, h2,
        by simp [generate_zk_proof, generate_body, pyGetItem, h1, h2, Except.bind]⟩
    | some v2 =>
      cases h3 : lookupKey md "model_hash" with
      | none =>
        exact ⟨"model_hash", by simp, h3,
          by simp [generate_zk_proof, generate_body, pyGetItem, h1, h2, h3, Except.bind]⟩
      | some v3 =>
        cases h4 : lookupKey md "input_length" with
        | none =>
          exact ⟨"input_length", by simp, h4,
            by simp [generate_zk_proof, generate_body, pyGetItem, h1, h2, h3, h4, Except.bind]⟩
        | some v4 =>
          cases h5 : lookupKey md "output_length" with
          | none =>
            exact ⟨"output_length", by simp, h5,
              by simp [generate_zk_proof, generate_body, pyGetItem, h1, h2, h3, h4, h5,
                Except.bind]⟩
          | some v5 =>
            cases h6 : lookupKey md "verification_key" with
            | none =>
              exact ⟨"verification_key", by simp, h6,
                by simp [generate_zk_proof, generate_body, pyGetItem, h1, h2, h3, h4, h5, h6,
                  Except.bind]⟩
            | some v6 =>
              simp [h1, h2, h3, h4, h5, h6] at h

/-- Witness for C9: a metadata record lacking `verification_key`. -/
theorem C9_synthesis_input_error_witness :
    (lookupKey [(("input_hash" : String), PyVal.str "ih")] "verification_key" = none) ∧
    (∃ f, f ∈ ["input_hash", "output_hash", "model_hash",
               "input_length", "output_length", "verification_key"] ∧
      lookupKey [(("input_hash" : String), PyVal.str "ih")] f = none ∧
      generate_zk_proof "t" "s" (PyVal.dict [(("input_hash" : String), PyVal.str "ih")]) =
        .error (.runtimeError (.keyError f))) :=
  ⟨rfl, C9_synthesis_input_error "t" "s" [("input_hash", PyVal.str "ih")]
    (Or.inr (Or.inl rfl))⟩

/-- C5: Artifact invariants — every artifact produced by proof synthesis
from metadata with the six consumed fields present satisfies:
(a) its `commitment` field equals `_generate_commitment` (names sorted
lexicographically, `name:value` pieces concatenated with no separator,
then digested) applied to the string projection of its `circuit_inputs`
field; (b) its four public signals are the 16-character prefixes of the
`input_hash`, `output_hash`, `model_hash` and `verification_key` values
of those circuit inputs; (c) `pi_a` and `pi_c` have exactly 3 entries and
`pi_b` has exactly 3 rows of exactly 2 entries. -/
theorem C5_artifact_invariants (text summary : String) (metadata : PyVal)
    (ih oh mh vk : String) (il ol : PyVal)
    (hih : pyGetItem metadata "input_hash" = .ok (.str ih))
    (hoh : pyGetItem metadata "output_hash" = .ok (.str oh))
    (hmh : pyGetItem metadata "model_hash" = .ok (.str mh))
    (hil : pyGetItem metadata "input_length" = .ok il)
    (hol : pyGetItem metadata "output_length" = .ok ol)
    (hvk : pyGetItem metadata "verification_key" = .ok (.str vk)) :
    ∃ p, generate_zk_proof text summary metadata = .ok p ∧
      pyGetItem p "circuit_inputs" = .ok (PyVal.dict
        [("input_hash", .str ih), ("output_hash", .str oh), ("model_hash", .str mh),
         ("input_length", .str (pyStrOf il)), ("output_length", .str (pyStrOf ol)),
         ("verification_key", .str vk)]) ∧
      pyGetItem p "commitment" = .ok (.str (_generate_commitment
        [("input_hash", ih), ("output_hash", oh), ("model_hash", mh),
         ("input_length", pyStrOf il), ("output_length", pyStrOf ol),
         ("verification_key", vk)])) ∧
      pyGetItem p "public_signals" = .ok (PyVal.list
        [.str (ih.take 16), .str (oh.take 16), .str (mh.take 16), .str (vk.take 16)]) ∧
      (∃ pa, pyGetItem p "pi_a" = .ok (PyVal.list pa) ∧ pa.length = 3) ∧
      (∃ pc, pyGetItem p "pi_c" = .ok (PyVal.list pc) ∧ pc.length = 3) ∧
      (∃ pb, pyGetItem p "pi_b" = .ok (PyVal.list pb) ∧ pb.length = 3 ∧
        ∀ r ∈ pb, ∃ rr, r = PyVal.list rr ∧ rr.length = 2) := by
  have hgen := generate_ok_of_fields text summary metadata ih oh mh vk il ol
    hih hoh hmh hil hol hvk
  refine ⟨_, hgen, ?_, ?_, ?_, ?_, ?_, ?_⟩
  · simp [pyGetItem, lookupKey]
  · simp [pyGetItem, lookupKey]
  · simp [pyGetItem, lookupKey]
  · exact ⟨_, by simp only [pyGetItem, lookupKey]; rfl,
      by simp [_generate_proof_point, pointFromSeed_length]⟩
  · exact ⟨_, by simp only [pyGetItem, lookupKey]; rfl,
      by simp [_generate_proof_point, pointFromSeed_length]⟩
  refine ⟨_, by simp only [pyGetItem, lookupKey]; rfl, ?_, ?_⟩
  · simp [_generate_proof_matrix, matrixFromSeed_length]
  intro r hr
  simp only [_generate_proof_matrix, List.mem_map] at hr
  obtain ⟨row, hrow, rfl⟩ := hr
  obtain ⟨row2, hrow2, rfl⟩ := hrow
  exact ⟨(row2.map fun n => toString n).map PyVal.str, rfl,
    by simp [(matrixFromSeed_rows _ _ hrow2).1]⟩

/-- Witness for C5 at the concrete metadata fixture. -/
theorem C5_artifact_invariants_witness :
    (pyGetItem sampleMetadata "input_hash" = .ok (.str "ih")) ∧
    (pyGetItem sampleMetadata "output_hash" = .ok (.str "oh")) ∧
    (pyGetItem sampleMetadata "model_hash" = .ok (.str "mh")) ∧
    (pyGetItem sampleMetadata "input_length" = .ok (PyVal.int 5)) ∧
    (pyGetItem sampleMetadata "output_length" = .ok (PyVal.int 3)) ∧
    (pyGetItem sampleMetadata "verification_key" = .ok (.str "vk")) ∧
    (∃ p, generate_zk_proof "t" "s" sampleMetadata = .ok p ∧
      pyGetItem p "circuit_inputs" = .ok (PyVal.dict
        [("input_hash", .str "ih"), ("output_hash", .str "oh"), ("model_hash", .str "mh"),
         ("input_length", .str (pyStrOf (PyVal.int 5))),
         ("output_length", .str (pyStrOf (PyVal.int 3))),
         ("verification_key", .str "vk")]) ∧
      pyGetItem p "commitment" = .ok (.str (_generate_commitment
        [("input_hash", "ih"), ("output_hash", "oh"), ("model_hash", "mh"),
         ("input_length", pyStrOf (PyVal.int 5)), ("output_length", pyStrOf (PyVal.int 3)),
         ("verification_key", "vk")])) ∧
      pyGetItem p "public_signals" = .ok (PyVal.list
        [.str (("ih" : String).take 16), .str (("oh" : String).take 16),
         .str (("mh" : String).take 16), .str (("vk" : String).take 16)]) ∧
      (∃ pa, pyGetItem p "pi_a" = .ok (PyVal.list pa) ∧ pa.length = 3) ∧
      (∃ pc, pyGetItem p "pi_c" = .ok (PyVal.list pc) ∧ pc.length = 3) ∧
      (∃ pb, pyGetItem p "pi_b" = .ok (PyVal.list pb) ∧ pb.length = 3 ∧
        ∀ r ∈ pb, ∃ rr, r = PyVal.list rr ∧ rr.length = 2)) :=
  ⟨rfl, rfl, rfl, rfl, rfl, rfl,
   C5_artifact_invariants "t" "s" sampleMetadata "ih" "oh" "mh" "vk" (PyVal.int 5)
     (PyVal.int 3) rfl rfl rfl rfl rfl rfl⟩

/-- C8: Proof-point derivation — in every synthesized artifact, `pi_a` and
`pi_c` are each the 3 draws of the generator seeded with the integer
value of the commitment's first 8 hex characters read as base 16 (the
suffix argument is unused by `_generate_proof_point`, so both points use
the same seed), `pi_b` is the 3×2 draw of the generator seeded with that
same integer plus the length of its literal tag string `"b"`, and every
drawn entry is an integer in the range [1, 1000) produced by the
uniform bounded sampler `np.random.randint(1, 1000)`. -/
theorem C8_proof_point_derivation (text summary : String) (metadata : PyVal)
    (ih oh mh vk : String) (il ol : PyVal)
    (hih : pyGetItem metadata "input_hash" = .ok (.str ih))
    (hoh : pyGetItem metadata "output_hash" = .ok (.str oh))
    (hmh : pyGetItem metadata "model_hash" = .ok (.str mh))
    (hil : pyGetItem metadata "input_length" = .ok il)
    (hol : pyGetItem metadata "output_length" = .ok ol)
    (hvk : pyGetItem metadata "verification_key" = .ok (.str vk)) :
    ∃ p commitment, generate_zk_proof text summary metadata = .ok p ∧
      pyGetItem p "commitment" = .ok (.str commitment) ∧
      pyGetItem p "pi_a" = .ok (PyVal.list
        ((pointFromSeed (hexVal (commitment.take 8))).map fun n => PyVal.str (toString n))) ∧
      pyGetItem p "pi_c" = .ok (PyVal.list
        ((pointFromSeed (hexVal (commitment.take 8))).map fun n => PyVal.str (toString n))) ∧
      pyGetItem p "pi_b" = .ok (PyVal.list
        ((matrixFromSeed (hexVal (commitment.take 8) + ("b" : String).length)).map
          fun r => PyVal.list (r.map fun n => PyVal.str (toString n)))) ∧
      (∀ n ∈ pointFromSeed (hexVal (commitment.take 8)), 1 ≤ n ∧ n < 1000) ∧
      (∀ r ∈ matrixFromSeed (hexVal (commitment.take 8) + ("b" : String).length),
        ∀ n ∈ r, 1 ≤ n ∧ n < 1000) := by
  have hgen := generate_ok_of_fields text summary metadata ih oh mh vk il ol
    hih hoh hmh hil hol hvk
  refine ⟨_, _generate_commitment
      [("input_hash", ih), ("output_hash", oh), ("model_hash", mh),
       ("input_length", pyStrOf il), ("output_length", pyStrOf ol),
       ("verification_key", vk)], hgen, ?_, ?_, ?_, ?_, ?_, ?_⟩
  · simp [pyGetItem, lookupKey]
  · simp [pyGetItem, lookupKey, _generate_proof_point, List.map_map, Function.comp]
  · simp [pyGetItem, lookupKey, _generate_proof_point, List.map_map, Function.comp]
  · simp [pyGetItem, lookupKey, _generate_proof_matrix, List.map_map, Function.comp]
  · intro n hn
    have h := pointFromSeed_range _ n hn
    omega
  · intro r hr n hn
    have h := (matrixFromSeed_rows _ r hr).2 n hn
    omega

/-- Witness for C8 at the concrete metadata fixture. -/
theorem C8_proof_point_derivation_witness :
    (pyGetItem sampleMetadata "input_hash" = .ok (.str "ih")) ∧
    (pyGetItem sampleMetadata "output_hash" = .ok (.str "oh")) ∧
    (pyGetItem sampleMetadata "model_hash" = .ok (.str "mh")) ∧
    (pyGetItem sampleMetadata "input_length" = .ok (PyVal.int 5)) ∧
    (pyGetItem sampleMetadata "output_length" = .ok (PyVal.int 3)) ∧
    (pyGetItem sampleMetadata "verification_key" = .ok (.str "vk")) ∧
    (∃ p commitment, generate_zk_proof "t" "s" sampleMetadata = .ok p ∧
      pyGetItem p "commitment" = .ok (.str commitment) ∧
      pyGetItem p "pi_a" = .ok (PyVal.list
        ((pointFromSeed (hexVal (commitment.take 8))).map fun n => PyVal.str (toString n))) ∧
      pyGetItem p "pi_c" = .ok (PyVal.list
        ((pointFromSeed (hexVal (commitment.take 8))).map fun n => PyVal.str (toString n))) ∧
      pyGetItem p "pi_b" = .ok (PyVal.list
        ((matrixFromSeed (hexVal (commitment.take 8) + ("b" : String).length)).map
          fun r => PyVal.list (r.map fun n => PyVal.str (toString n)))) ∧
      (∀ n ∈ pointFromSeed (hexVal (commitment.take 8)), 1 ≤ n ∧ n < 1000) ∧
      (∀ r ∈ matrixFromSeed (hexVal (commitment.take 8) + ("b" : String).length),
        ∀ n ∈ r, 1 ≤ n ∧ n < 1000)) :=
  ⟨rfl, rfl, rfl, rfl, rfl, rfl,
   C8_proof_point_derivation "t" "s" sampleMetadata "ih" "oh" "mh" "vk" (PyVal.int 5)
     (PyVal.int 3) rfl rfl rfl rfl rfl rfl⟩

/-- If the artifact's public-signal list does not have exactly 4 entries,
or one of the three point keys is absent, the source's structure check
evaluates to `False`. -/
theorem structure_check_ok_false (kvs : List (String × PyVal)) (l : List PyVal)
    (h : (lookupKey kvs "public_signals" = some (PyVal.list l) ∧ l.length ≠ 4) ∨
         containsKey kvs "pi_a" = false ∨ containsKey kvs "pi_b" = false ∨
         containsKey kvs "pi_c" = false) :
    structure_check (PyVal.dict kvs) = .ok false := by
  rcases h with ⟨hps, hlen⟩ | hpa | hpb | hpc
  · by_cases ha : containsKey kvs "pi_a" = true
    · by_cases hb : containsKey kvs "pi_b" = true
      · by_cases hc : containsKey kvs "pi_c" = true
        · simp [structure_check, pyContains, ha, hb, hc, pyGetItem, hps, pyLen, Except.bind,
            beq_eq_false_iff_ne.mpr hlen]
        · simp [structure_check, pyContains, ha, hb,
            show containsKey kvs "pi_c" = false by simpa using hc, Except.bind]
      · simp [structure_check, pyContains, ha,
          show containsKey kvs "pi_b" = false by simpa using hb, Except.bind]
    · simp [structure_check, pyContains,
        show containsKey kvs "pi_a" = false by simpa using ha, Except.bind]
  · simp [structure_check, pyContains, hpa, Except.bind]
  · by_cases ha : containsKey kvs "pi_a" = true
    · simp [structure_check, pyContains, ha, hpb, Except.bind]
    · simp [structure_check, pyContains,
        show containsKey kvs "pi_a" = false by simpa using ha, Except.bind]
  · by_cases ha : containsKey kvs "pi_a" = true
    · by_cases hb : containsKey kvs "pi_b" = true
      · simp [structure_check, pyContains, ha, hb, hpc, Except.bind]
      · simp [structure_check, pyContains, ha,
          show containsKey kvs "pi_b" = false by simpa using hb, Except.bind]
    · simp [structure_check, pyContains,
        show containsKey kvs "pi_a" = false by simpa using ha, Except.bind]

/-- Counterexample to C6 as stated: an artifact whose `pi_a` has only 2
entries and whose `pi_b` and `pi_c` are empty lists — so neither
pointA/pointC length 3 nor the 3×2 shape of pointB holds — is still
accepted (`valid = true`): the source's structure check only tests key
presence of `pi_a`/`pi_b`/`pi_c` and the public-signal count, never the
point shapes.  (The artifact's public signals match the hashes of
`text = "a"`, `summary = "b"`, model hash `"m"`, and its commitment
matches its empty circuit-inputs dict, so every check the source actually
performs passes.) -/
theorem C6_structural_rejection_counterexample :
    verify_inference "m" "a" "b"
      (PyVal.dict
        [("pi_a", PyVal.list [PyVal.str "1", PyVal.str "2"]),
         ("pi_b", PyVal.list []),
         ("pi_c", PyVal.list []),
         ("public_signals", PyVal.list
           [PyVal.str ((sha256hex "a").take 16), PyVal.str ((sha256hex "b").take 16),
            PyVal.str "m", PyVal.str "x"]),
         ("commitment", PyVal.str (sha256hex "")),
         ("circuit_inputs", PyVal.dict [])]) = true := by decide

/-- C6 amended: verification rejects (returns `valid = false` for) every
artifact whose public-signal list does not have exactly 4 entries, and
every artifact lacking one of the required point keys `pi_a`, `pi_b`,
`pi_c`; the source does not check the lengths of pointA/pointC or the
shape of pointB (see the counterexample), it reports no reason value, and
it hashes the text and summary before evaluating the structural check
rather than after it. -/
theorem C6_structural_rejection_amended (model_hash text summary : String)
    (kvs : List (String × PyVal)) (l : List PyVal)
    (h : (lookupKey kvs "public_signals" = some (PyVal.list l) ∧ l.length ≠ 4) ∨
         containsKey kvs "pi_a" = false ∨ containsKey kvs "pi_b" = false ∨
         containsKey kvs "pi_c" = false) :
    verify_inference model_hash text summary (PyVal.dict kvs) = false := by
  have hst := structure_check_ok_false kvs l h
  cases hh : hash_matches_check model_hash (sha256hex text) (sha256hex summary)
      (PyVal.dict kvs) with
  | error e => simp [verify_inference, verify_checks, hh, Except.bind]
  | ok hb =>
    cases hcm : commitment_check (PyVal.dict kvs) with
    | error e => simp [verify_inference, verify_checks, hh, hcm, Except.bind]
    | ok cb => simp [verify_inference, verify_checks, hh, hcm, hst, Except.bind]

/-- Witness for the amended C6 at a concrete artifact lacking `pi_a`. -/
theorem C6_structural_rejection_amended_witness :
    containsKey ([] : List (String × PyVal)) "pi_a" = false ∧
    verify_inference "m" "t" "s" (PyVal.dict []) = false :=
  ⟨rfl, C6_structural_rejection_amended "m" "t" "s" [] [] (Or.inr (Or.inl rfl))⟩
